import Mathlib

/-!
Shallow embedding of `mcp-server.py` (todo-mcp.nvim): a SQLite-backed todo
store (`TodoDatabase`), an MCP tool registry and dispatcher (`handle_request`),
and a line-delimited JSON-RPC transport loop (`run`).

Modelling conventions:
* JSON values are the inductive `JVal`; Python dicts appearing in requests and
  responses are association lists of string keys in insertion order (JSON
  objects produced by `json.loads` have unique keys).
* A line read from stdin is `Option JVal`: `none` models a line on which
  `json.loads` raises `JSONDecodeError`, `some v` a line that parses to the
  JSON value `v`.
* `CURRENT_TIMESTAMP` is a logical clock (`Nat`), threaded through the loop
  and incremented once per input line; SQLite stores booleans as the integers
  0/1 and that is how `done` is serialized in `list_todos` output.
* A Python exception escaping `handle_request` (e.g. `AttributeError` when the
  request or its `params` is not a dict) is `Except.error msg`, where `msg`
  abstracts `str(e)`; exceptions raised by a tool handler are caught inside
  the `tools/call` branch and never escape.
* Python type annotations on the store (`content: Optional[str]`,
  `done: Optional[bool]`, `todo_id: int`) are taken at face value; SQLite
  affinity coercions for ill-typed bound values are outside the model (no
  claim exercises them).
-/

namespace TodoMCP

/-- JSON values, as produced by `json.loads`: objects keep key insertion
order, numbers are modelled as integers (no claim involves fractions). -/
inductive JVal where
  | null
  | bool (b : Bool)
  | num (n : Int)
  | str (s : String)
  | arr (elems : List JVal)
  | obj (fields : List (String × JVal))

/-- `d.get(k)` on a Python dict with string keys: first (only) binding. -/
def dictGet (fields : List (String × JVal)) (k : String) : Option JVal :=
  List.lookup k fields

/-- `request.get(k)` where `request` is the parsed JSON value: only defined
when the value is a dict; other shapes raise `AttributeError` in Python and
are handled at each use site. -/
def JVal.get (v : JVal) (k : String) : Option JVal :=
  match v with
  | .obj fields => dictGet fields k
  | _ => none

/-- Whether a JSON value is an object (a Python dict after `json.loads`). -/
def JVal.isObj : JVal → Bool
  | .obj _ => true
  | _ => false

/-- The Python type name of the object `json.loads` yields for this value,
used to render `AttributeError` detail strings. -/
def pyTypeName : JVal → String
  | .null => "NoneType"
  | .bool _ => "bool"
  | .num _ => "int"
  | .str _ => "str"
  | .arr _ => "list"
  | .obj _ => "dict"

/-- `str(x)` for the Python value behind a JSON value, as interpolated by the
f-strings in `handle_request` (abstracting Python repr for lists/dicts). -/
def pyStr : JVal → String
  | .null => "None"
  | .bool true => "True"
  | .bool false => "False"
  | .num n => toString n
  | .str s => s
  | .arr _ => "list"
  | .obj _ => "dict"

/-- `str(x)` where `x` may be `None` from a failed `dict.get` lookup. -/
def pyStrOpt : Option JVal → String
  | none => "None"
  | some v => pyStr v

/-- One row of the `todos` table (see `ensure_db_exists`): integer primary
key, text content, boolean `done` defaulting to false, two timestamps
defaulting to the current time. -/
structure Todo where
  id : Nat
  content : String
  done : Bool
  created_at : Nat
  updated_at : Nat

/-- The SQLite database: rows in rowid (insertion) order, plus the
AUTOINCREMENT sequence value (largest id ever assigned; never reused). -/
structure TodoDatabase where
  rows : List Todo
  seq : Nat

/-- The freshly created empty table. -/
def TodoDatabase.empty : TodoDatabase := ⟨[], 0⟩

/-- `done ASC` sort key: SQLite stores the boolean as 0/1. -/
def Todo.doneNat (t : Todo) : Nat := if t.done then 1 else 0

/-- The `ORDER BY done ASC, created_at ASC` comparison of `get_all`. -/
def todoLe (a b : Todo) : Prop :=
  a.doneNat < b.doneNat ∨ (a.doneNat = b.doneNat ∧ a.created_at ≤ b.created_at)

instance : DecidableRel todoLe := fun a b => by
  unfold todoLe; infer_instance

instance : IsTotal Todo todoLe := by
  constructor
  intro a b
  rcases Nat.lt_trichotomy a.doneNat b.doneNat with h | h | h
  · exact Or.inl (Or.inl h)
  · rcases Nat.le_total a.created_at b.created_at with h2 | h2
    · exact Or.inl (Or.inr ⟨h, h2⟩)
    · exact Or.inr (Or.inr ⟨h.symm, h2⟩)
  · exact Or.inr (Or.inl h)

instance : IsTrans Todo todoLe := by
  constructor
  intro a b c hab hbc
  rcases hab with h1 | ⟨h1, h1c⟩ <;> rcases hbc with h2 | ⟨h2, h2c⟩
  · exact Or.inl (h1.trans h2)
  · exact Or.inl (h2 ▸ h1)
  · exact Or.inl (h1 ▸ h2)
  · exact Or.inr ⟨h1.trans h2, h1c.trans h2c⟩

/-- `TodoDatabase.get_all`: `SELECT * FROM todos ORDER BY done ASC,
created_at ASC` (rows come back sorted by the key; ties cannot arise in runs
of the server because each row gets a distinct creation timestamp). -/
def TodoDatabase.get_all (db : TodoDatabase) : List Todo :=
  List.insertionSort todoLe db.rows

/-- `TodoDatabase.add`: `INSERT INTO todos (content) VALUES (?)` at time
`now`; `done` defaults to false, both timestamps default to the current time,
the id is the next AUTOINCREMENT value; returns `lastrowid` and the new
state. -/
def TodoDatabase.add (db : TodoDatabase) (content : String) (now : Nat) :
    TodoDatabase × Nat :=
  let newId := db.seq + 1
  (⟨db.rows ++ [⟨newId, content, false, now, now⟩], newId⟩, newId)

/-- `TodoDatabase.update`: builds the SET clause from the supplied optional
fields; with neither supplied it returns false before executing any SQL.
Otherwise `UPDATE todos SET <fields>, updated_at = CURRENT_TIMESTAMP WHERE
id = ?`; `cursor.rowcount > 0` iff some row matched the id. -/
def TodoDatabase.update (db : TodoDatabase) (todo_id : Int)
    (content : Option String) (done : Option Bool) (now : Nat) :
    TodoDatabase × Bool :=
  if content.isNone ∧ done.isNone then
    (db, false)
  else
    let rows := db.rows.map fun r =>
      if (r.id : Int) = todo_id then
        { r with
          content := content.getD r.content
          done := done.getD r.done
          updated_at := now }
      else r
    (⟨rows, db.seq⟩, db.rows.any fun r => (r.id : Int) == todo_id)

/-- `TodoDatabase.delete`: `DELETE FROM todos WHERE id = ?`;
`cursor.rowcount > 0` iff some row matched. -/
def TodoDatabase.delete (db : TodoDatabase) (todo_id : Int) :
    TodoDatabase × Bool :=
  (⟨db.rows.filter (fun r => ¬ (r.id : Int) == todo_id), db.seq⟩,
   db.rows.any fun r => (r.id : Int) == todo_id)

/-- `dict(row)` for a fetched row, in table column order; SQLite surfaces the
BOOLEAN column as the integer 0/1 and the timestamps as stored. -/
def todoToJson (t : Todo) : JVal :=
  .obj [("id", .num t.id), ("content", .str t.content),
        ("done", .num (if t.done then 1 else 0)),
        ("created_at", .num t.created_at), ("updated_at", .num t.updated_at)]

/-- The registry keys of `self.tools`, in declaration (dict insertion)
order. -/
def toolNames : List String :=
  ["list_todos", "add_todo", "update_todo", "delete_todo"]

/-- `MCPServer.list_todos(**kwargs)`: ignores its arguments. -/
def list_todos (db : TodoDatabase) : TodoDatabase × JVal :=
  (db, .obj [("todos", .arr (db.get_all.map todoToJson))])

/-- `MCPServer.add_todo(content, **kwargs)` invoked with keyword arguments
`args`: a missing `content` raises `TypeError` (rendered without quotes), a
JSON `null` content violates the NOT NULL constraint; both are caught by the
dispatcher, which turns the message into an error result. A non-string
content is rejected likewise (the model keeps the annotated `str` type). -/
def add_todo (db : TodoDatabase) (now : Nat) (args : List (String × JVal)) :
    TodoDatabase × JVal :=
  match dictGet args "content" with
  | none =>
    (db, .obj [("error",
      .str "add_todo() missing 1 required positional argument: content")])
  | some .null =>
    (db, .obj [("error", .str "NOT NULL constraint failed: todos.content")])
  | some (.str s) =>
    let (db2, newId) := db.add s now
    (db2, .obj [("id", .num newId), ("success", .bool true)])
  | some v =>
    (db, .obj [("error",
      .str ("Error binding parameter 1: type " ++ pyTypeName v
            ++ " is not supported"))])

/-- Extract the `content` keyword of `update_todo`: absent or JSON `null`
both become Python `None` (field not supplied). -/
def optStrArg (v : Option JVal) : Option String :=
  match v with
  | some (.str s) => some s
  | _ => none

/-- Extract the `done` keyword of `update_todo`: absent or JSON `null`
both become Python `None` (field not supplied). -/
def optBoolArg (v : Option JVal) : Option Bool :=
  match v with
  | some (.bool b) => some b
  | _ => none

/-- `MCPServer.update_todo(id, content=None, done=None, **kwargs)`: a missing
`id` raises `TypeError` (caught by the dispatcher); otherwise delegates to
the store. A non-integer id matches no row, so the update reports false. -/
def update_todo (db : TodoDatabase) (now : Nat)
    (args : List (String × JVal)) : TodoDatabase × JVal :=
  match dictGet args "id" with
  | none =>
    (db, .obj [("error",
      .str "update_todo() missing 1 required positional argument: id")])
  | some idv =>
    match idv with
    | .num n =>
      let (db2, ok) := db.update n (optStrArg (dictGet args "content"))
        (optBoolArg (dictGet args "done")) now
      (db2, .obj [("success", .bool ok)])
    | _ =>
      (db, .obj [("success", .bool false)])

/-- `MCPServer.delete_todo(id, **kwargs)`: a missing `id` raises `TypeError`
(caught by the dispatcher); a non-integer id matches no row. -/
def delete_todo (db : TodoDatabase) (args : List (String × JVal)) :
    TodoDatabase × JVal :=
  match dictGet args "id" with
  | none =>
    (db, .obj [("error",
      .str "delete_todo() missing 1 required positional argument: id")])
  | some (.num n) =>
    let (db2, ok) := db.delete n
    (db2, .obj [("success", .bool ok)])
  | some _ =>
    (db, .obj [("success", .bool false)])

/-- `self.tools[tool_name](**arguments)` for a registered name, including
the `except Exception` wrapper of the `tools/call` branch: handler-raised
errors come back as an error result, never as a transport failure. A
non-dict `arguments` value makes the `**` expansion raise `TypeError`,
likewise caught. -/
def callTool (db : TodoDatabase) (now : Nat) (name : String)
    (arguments : JVal) : TodoDatabase × JVal :=
  match arguments with
  | .obj args =>
    if name = "list_todos" then list_todos db
    else if name = "add_todo" then add_todo db now args
    else if name = "update_todo" then update_todo db now args
    else delete_todo db args
  | v =>
    (db, .obj [("error",
      .str ("argument after ** must be a mapping, not " ++ pyTypeName v))])

/-- The schema-properties entry each `elif` branch of the `tools/list` loop
assigns for one tool (empty for `list_todos`, which no branch touches). -/
def toolProperties (name : String) : List (String × JVal) :=
  if name = "add_todo" then
    [("content", .obj [("type", .str "string"),
                       ("description", .str "The todo item content")])]
  else if name = "update_todo" then
    [("id", .obj [("type", .str "integer"),
                  ("description", .str "The todo item ID")]),
     ("content", .obj [("type", .str "string"),
                       ("description", .str "New content (optional)")]),
     ("done", .obj [("type", .str "boolean"),
                    ("description", .str "Mark as done/undone (optional)")])]
  else if name = "delete_todo" then
    [("id", .obj [("type", .str "integer"),
                  ("description", .str "The todo item ID to delete")])]
  else []

/-- The `required` key the `tools/list` loop appends to `inputSchema`, when
any: no branch adds one for `list_todos`. -/
def toolRequired (name : String) : List (String × JVal) :=
  if name = "add_todo" then [("required", .arr [.str "content"])]
  else if name = "update_todo" then [("required", .arr [.str "id"])]
  else if name = "delete_todo" then [("required", .arr [.str "id"])]
  else []

/-- The stripped docstring of each handler. -/
def toolDescription (name : String) : String :=
  if name = "list_todos" then "List all todo items"
  else if name = "add_todo" then "Add a new todo item"
  else if name = "update_todo" then "Update a todo item"
  else "Delete a todo item"

/-- One `tool_def` entry of the `tools/list` response. -/
def toolDef (name : String) : JVal :=
  .obj [("name", .str name),
        ("description", .str (toolDescription name)),
        ("inputSchema",
          .obj ([("type", .str "object"),
                 ("properties", .obj (toolProperties name))]
                ++ toolRequired name))]

/-- `MCPServer.handle_request`: dispatch on `request.get("method")`. The
`Except.error` branch models a Python exception escaping this function
(request or `params` not a dict), carrying the `AttributeError` detail; the
database is untouched in that case because the exception fires before any
handler runs. -/
def handle_request (db : TodoDatabase) (now : Nat) (request : JVal) :
    Except String (TodoDatabase × List (String × JVal)) :=
  match request with
  | .obj fields =>
    match dictGet fields "method" with
    | some (.str m) =>
      if m = "initialize" then
        .ok (db, [("protocolVersion", .str "2024-11-05"),
                  ("capabilities", .obj [("tools", .obj [])]),
                  ("serverInfo", .obj [("name", .str "todo-mcp"),
                                       ("version", .str "1.0.0")])])
      else if m = "tools/list" then
        .ok (db, [("tools", .arr (toolNames.map toolDef))])
      else if m = "tools/call" then
        match (dictGet fields "params").getD (.obj []) with
        | .obj pfields =>
          let arguments := (dictGet pfields "arguments").getD (.obj [])
          match dictGet pfields "name" with
          | some (.str s) =>
            if s ∈ toolNames then
              match callTool db now s arguments with
              | (db2, .obj rfields) => .ok (db2, rfields)
              | (db2, _) => .ok (db2, [])
            else
              .ok (db, [("error", .str ("Tool not found: " ++ s))])
          | other =>
            .ok (db, [("error", .str ("Tool not found: " ++ pyStrOpt other))])
        | v => .error (pyTypeName v ++ " object has no attribute get")
      else
        .ok (db, [("error", .str ("Unknown method: " ++ m))])
    | m =>
      .ok (db, [("error", .str ("Unknown method: " ++ pyStrOpt m))])
  | v => .error (pyTypeName v ++ " object has no attribute get")

/-- The `jsonrpc` and (when the request carried one) `id` keys the loop
appends to a successful response dict. -/
def responseTail (request : JVal) : List (String × JVal) :=
  [("jsonrpc", .str "2.0")] ++
    match request.get "id" with
    | some idv => [("id", idv)]
    | none => []

/-- The `except Exception` envelope of the loop. The source guards the id
copy with `"id" in locals()`, but no local variable is named `id`, so the
guard is always false and the envelope never carries an id. -/
def errorResponse (detail : String) : JVal :=
  .obj [("jsonrpc", .str "2.0"),
        ("error", .obj [("code", .num (-32603)),
                        ("message", .str "Internal error"),
                        ("data", .str detail)])]

/-- `MCPServer.run`: one pass over the input lines (`none` = line on which
`json.loads` raises, silently skipped). Returns the emitted response lines
in order; the logical clock advances once per line. -/
def run (db : TodoDatabase) (now : Nat) : List (Option JVal) → List JVal
  | [] => []
  | none :: rest => run db (now + 1) rest
  | some request :: rest =>
    match handle_request db now request with
    | .ok (db2, result) =>
      .obj (result ++ responseTail request) :: run db2 (now + 1) rest
    | .error detail =>
      errorResponse detail :: run db (now + 1) rest

/-- One storage mutation, for stating whole-history invariants over the
store (§3 of the spec quantifies over arbitrary operation sequences). -/
inductive Op where
  | add (content : String)
  | update (todo_id : Int) (content : Option String) (done : Option Bool)
  | delete (todo_id : Int)

/-- Apply one operation at the given time, keeping only the resulting
state. -/
def applyOp (db : TodoDatabase) (now : Nat) : Op → TodoDatabase
  | .add c => (db.add c now).1
  | .update i c d => (db.update i c d now).1
  | .delete i => (db.delete i).1

/-- Run a history of operations; the clock advances once per operation,
matching the transport loop. -/
def exec (db : TodoDatabase) (now : Nat) : List Op → TodoDatabase
  | [] => db
  | op :: rest => exec (applyOp db now op) (now + 1) rest

/-- The ids handed out by the `add` operations of a history, in order. -/
def assignedIds (db : TodoDatabase) (now : Nat) : List Op → List Nat
  | [] => []
  | op :: rest =>
    match op with
    | .add _ => (db.seq + 1) :: assignedIds (applyOp db now op) (now + 1) rest
    | _ => assignedIds (applyOp db now op) (now + 1) rest

/-- The store invariant: ids are pairwise distinct and bounded by the
AUTOINCREMENT sequence, and every row's timestamps satisfy
`created_at ≤ updated_at < clock`. -/
def Inv (db : TodoDatabase) (now : Nat) : Prop :=
  db.rows.Pairwise (fun a b => a.id ≠ b.id)
    ∧ (∀ t ∈ db.rows, t.id ≤ db.seq)
    ∧ (∀ t ∈ db.rows, t.created_at ≤ t.updated_at ∧ t.updated_at < now)

theorem inv_empty (now : Nat) : Inv TodoDatabase.empty now := by
  refine ⟨List.Pairwise.nil, ?_, ?_⟩ <;> intro t ht <;> cases ht

theorem inv_applyOp {db : TodoDatabase} {now : Nat} (op : Op)
    (h : Inv db now) : Inv (applyOp db now op) (now + 1) := by
  obtain ⟨hdist, hle, hts⟩ := h
  cases op with
  | add c =>
    simp only [applyOp, TodoDatabase.add]
    refine ⟨?_, ?_, ?_⟩
    · rw [List.pairwise_append]
      refine ⟨hdist, List.pairwise_singleton _ _, ?_⟩
      intro a ha b hb
      simp only [List.mem_singleton] at hb
      subst hb
      intro hcontra
      have h2 := hle a ha
      rw [hcontra] at h2
      simp at h2
    · intro t ht
      rcases List.mem_append.mp ht with h1 | h1
      · exact Nat.le_succ_of_le (hle t h1)
      · simp only [List.mem_singleton] at h1
        subst h1
        exact Nat.le_refl _
    · intro t ht
      rcases List.mem_append.mp ht with h1 | h1
      · exact ⟨(hts t h1).1, Nat.lt_succ_of_lt (hts t h1).2⟩
      · simp only [List.mem_singleton] at h1
        subst h1
        exact ⟨Nat.le_refl _, Nat.lt_succ_self _⟩
  | update i c d =>
    simp only [applyOp, TodoDatabase.update]
    split
    · exact ⟨hdist, hle, fun t ht =>
        ⟨(hts t ht).1, Nat.lt_succ_of_lt (hts t ht).2⟩⟩
    · refine ⟨?_, ?_, ?_⟩
      · rw [List.pairwise_map]
        refine hdist.imp_of_mem ?_
        intro a b _ _ hab
        split <;> split <;> exact hab
      · intro t ht
        rw [List.mem_map] at ht
        obtain ⟨r, hr, rfl⟩ := ht
        split <;> exact hle r hr
      · intro t ht
        rw [List.mem_map] at ht
        obtain ⟨r, hr, rfl⟩ := ht
        split
        · exact ⟨Nat.le_of_lt ((hts r hr).1.trans_lt (hts r hr).2),
                 Nat.lt_succ_self _⟩
        · exact ⟨(hts r hr).1, Nat.lt_succ_of_lt (hts r hr).2⟩
  | delete i =>
    simp only [applyOp, TodoDatabase.delete]
    refine ⟨hdist.sublist (List.filter_sublist _), ?_, ?_⟩
    · intro t ht
      exact hle t (List.mem_of_mem_filter ht)
    · intro t ht
      exact ⟨(hts t (List.mem_of_mem_filter ht)).1,
             Nat.lt_succ_of_lt (hts t (List.mem_of_mem_filter ht)).2⟩

theorem inv_exec {db : TodoDatabase} {now : Nat} (ops : List Op)
    (h : Inv db now) : Inv (exec db now ops) (now + ops.length) := by
  induction ops generalizing db now with
  | nil => simpa using h
  | cons op rest ih =>
    have := ih (inv_applyOp op h)
    simpa [exec, Nat.add_comm, Nat.add_assoc, Nat.add_left_comm] using this

theorem seq_applyOp_le (db : TodoDatabase) (now : Nat) (op : Op) :
    db.seq ≤ (applyOp db now op).seq := by
  cases op with
  | add c => exact Nat.le_succ _
  | update i c d =>
    simp only [applyOp, TodoDatabase.update]
    split <;> exact Nat.le_refl _
  | delete i => exact Nat.le_refl _

theorem seq_lt_assignedIds {db : TodoDatabase} {now : Nat} {ops : List Op} :
    ∀ i ∈ assignedIds db now ops, db.seq < i := by
  induction ops generalizing db now with
  | nil => intro i hi; cases hi
  | cons op rest ih =>
    intro i hi
    cases op with
    | add c =>
      rcases List.mem_cons.mp hi with h1 | h1
      · subst h1; exact Nat.lt_succ_self _
      · exact Nat.lt_of_le_of_lt (Nat.le_succ _) (ih i h1)
    | update j c d =>
      exact Nat.lt_of_le_of_lt (seq_applyOp_le db now (.update j c d))
        (ih i hi)
    | delete j =>
      exact Nat.lt_of_le_of_lt (seq_applyOp_le db now (.delete j))
        (ih i hi)

theorem chain_assignedIds (db : TodoDatabase) (now : Nat) (ops : List Op) :
    List.Chain' (· < ·) (assignedIds db now ops) := by
  induction ops generalizing db now with
  | nil => exact List.chain'_nil
  | cons op rest ih =>
    cases op with
    | add c =>
      refine List.chain'_cons'.mpr ⟨?_, ih _ _⟩
      intro y hy
      exact seq_lt_assignedIds y (List.mem_of_mem_head? hy)
    | update j c d => exact ih _ _
    | delete j => exact ih _ _

/-! ## Claim theorems -/

/-- C1: a parsed request whose handling raises internally (here: `params`
bound to the number 5, so `params.get` raises `AttributeError`) makes the
loop emit the JSON-RPC error envelope with code -32603, message
"Internal error" and the failure detail as data, and the loop continues
with the next frame — but the envelope carries no id even though the
request carried id 7: the source guards the id copy with a check that a
local variable named `id` exists, which is never the case. -/
theorem C1_internal_error_envelope :
    run TodoDatabase.empty 0
        [some (.obj [("id", .num 7), ("method", .str "tools/call"),
                     ("params", .num 5)]),
         some (.obj [("id", .num 8), ("method", .str "ping")])]
      = [errorResponse "int object has no attribute get",
         .obj [("error", .str "Unknown method: ping"),
               ("jsonrpc", .str "2.0"), ("id", .num 8)]]
    ∧ (errorResponse "int object has no attribute get").get "id" = none
    ∧ (errorResponse "int object has no attribute get").get "error"
        = some (.obj [("code", .num (-32603)),
                      ("message", .str "Internal error"),
                      ("data", .str "int object has no attribute get")]) :=
  ⟨rfl, rfl, rfl⟩

/-- C2 counterexample: the line `42` is valid JSON but not a JSON object —
it fails to parse as a single JSON object — yet the loop does not discard
it silently: `request.get` raises and one -32603 response line is
emitted. -/
theorem C2_counterexample_nonobject_line :
    (JVal.num 42).isObj = false
    ∧ run TodoDatabase.empty 0 [some (.num 42)]
        = [errorResponse "int object has no attribute get"] :=
  ⟨rfl, rfl⟩

theorem run_skips_undecodable (db : TodoDatabase) :
    ∀ (now : Nat) (lines : List (Option JVal)),
      (∀ l ∈ lines, l = none) → run db now lines = []
  | _, [], _ => rfl
  | now, l :: rest, h => by
    have hl : l = none := h l (List.mem_cons_self l rest)
    subst hl
    exact run_skips_undecodable db (now + 1) rest
      (fun x hx => h x (List.mem_cons_of_mem _ hx))

/-- C2 (amended): every input line on which JSON decoding fails is silently
discarded — zero response lines, no crash, the loop continues — and ten
such lines followed by one valid `tools/list` request produce exactly one
response line, for that request only. (A line holding valid JSON that is
not an object instead yields one -32603 internal-error line, see the
counterexample.) -/
theorem C2_amended_silent_discard (db : TodoDatabase) (now : Nat)
    (lines : List (Option JVal)) (h : ∀ l ∈ lines, l = none) :
    run db now lines = []
    ∧ run db now (List.replicate 10 none
        ++ [some (.obj [("method", .str "tools/list"), ("id", .num 1)])])
      = [.obj ([("tools", .arr (toolNames.map toolDef))]
               ++ [("jsonrpc", .str "2.0"), ("id", .num 1)])] :=
  ⟨run_skips_undecodable db now lines h, rfl⟩

/-- Witness for C2 (amended) at two undecodable lines over the empty
store. -/
theorem C2_amended_witness :
    (∀ l ∈ ([none, none] : List (Option JVal)), l = none)
    ∧ (run TodoDatabase.empty 0 [none, none] = []
       ∧ run TodoDatabase.empty 0 (List.replicate 10 none
           ++ [some (.obj [("method", .str "tools/list"), ("id", .num 1)])])
         = [.obj ([("tools", .arr (toolNames.map toolDef))]
                  ++ [("jsonrpc", .str "2.0"), ("id", .num 1)])]) :=
  ⟨by simp,
   C2_amended_silent_discard TodoDatabase.empty 0 [none, none] (by simp)⟩

/-- C3: an update supplying neither `content` nor `done` writes nothing,
leaves every stored row unchanged and returns false, and the
corresponding `update_todo` tool result is success=false. -/
theorem C3_update_nothing_to_do :
    (∀ (db : TodoDatabase) (now : Nat) (todo_id : Int),
        db.update todo_id none none now = (db, false))
    ∧ (∀ (db : TodoDatabase) (now : Nat) (n : Int),
        update_todo db now [("id", .num n)]
          = (db, .obj [("success", .bool false)])) :=
  ⟨fun _ _ _ => rfl, fun _ _ _ => rfl⟩

/-- C5: `get_all` returns exactly the stored rows (a permutation), sorted
by done ascending then created_at ascending; an empty table yields the
empty sequence; and the A (done=false), B (made done by immediate update),
C (done=false) scenario lists [A, C, B]. -/
theorem C5_list_ordering :
    (∀ db : TodoDatabase,
        db.get_all.Perm db.rows ∧ List.Sorted todoLe db.get_all)
    ∧ (∀ seq : Nat, TodoDatabase.get_all ⟨[], seq⟩ = [])
    ∧ ((list_todos
          ((add_todo
            ((update_todo
              ((add_todo
                ((add_todo TodoDatabase.empty 0
                  [("content", .str "A")]).1) 1
                [("content", .str "B")]).1) 2
              [("id", .num 2), ("done", .bool true)]).1) 3
            [("content", .str "C")]).1)).2
        = .obj [("todos", .arr
            [todoToJson ⟨1, "A", false, 0, 0⟩,
             todoToJson ⟨3, "C", false, 3, 3⟩,
             todoToJson ⟨2, "B", true, 1, 2⟩])]) :=
  ⟨fun _ => ⟨List.perm_insertionSort _ _, List.sorted_insertionSort _ _⟩,
   fun _ => rfl, rfl⟩

/-- C7 counterexample: the `tools/list` response is the registry mapped to
tool defs, and the first emitted tool object (`list_todos`) has an
inputSchema with no `required` key at all, against the claim that every
emitted tool object's schema carries a required array. -/
theorem C7_counterexample_no_required_key :
    handle_request TodoDatabase.empty 0 (.obj [("method", .str "tools/list")])
      = .ok (TodoDatabase.empty, [("tools", .arr (toolNames.map toolDef))])
    ∧ ((toolDef "list_todos").get "inputSchema").bind
        (fun s => s.get "required") = none :=
  ⟨rfl, rfl⟩

/-- C7 (amended): `tools/list` enumerates the four tools in registry
declaration order, each as name/description/inputSchema; the three tools
with arguments list each argument's JSON type and description and carry a
required array of their required argument names, while `list_todos` has
empty properties and no required array. -/
theorem C7_amended_tools_list (db : TodoDatabase) (now : Nat) :
    handle_request db now (.obj [("method", .str "tools/list")])
      = .ok (db, [("tools", .arr
          [.obj [("name", .str "list_todos"),
                 ("description", .str "List all todo items"),
                 ("inputSchema", .obj
                   [("type", .str "object"), ("properties", .obj [])])],
           .obj [("name", .str "add_todo"),
                 ("description", .str "Add a new todo item"),
                 ("inputSchema", .obj
                   [("type", .str "object"),
                    ("properties", .obj
                      [("content", .obj
                        [("type", .str "string"),
                         ("description", .str "The todo item content")])]),
                    ("required", .arr [.str "content"])])],
           .obj [("name", .str "update_todo"),
                 ("description", .str "Update a todo item"),
                 ("inputSchema", .obj
                   [("type", .str "object"),
                    ("properties", .obj
                      [("id", .obj
                        [("type", .str "integer"),
                         ("description", .str "The todo item ID")]),
                       ("content", .obj
                        [("type", .str "string"),
                         ("description", .str "New content (optional)")]),
                       ("done", .obj
                        [("type", .str "boolean"),
                         ("description",
                          .str "Mark as done/undone (optional)")])]),
                    ("required", .arr [.str "id"])])],
           .obj [("name", .str "delete_todo"),
                 ("description", .str "Delete a todo item"),
                 ("inputSchema", .obj
                   [("type", .str "object"),
                    ("properties", .obj
                      [("id", .obj
                        [("type", .str "integer"),
                         ("description",
                          .str "The todo item ID to delete")])]),
                    ("required", .arr [.str "id"])])]])]) := rfl

/-- C10: a `tools/call` request with no params, or params without a name,
does not raise — the missing name is rendered as the unregistered tool
None — and absent arguments default to the empty mapping, so a call naming
`list_todos` without an arguments key invokes the handler normally. -/
theorem C10_missing_params_or_name (db : TodoDatabase) (now : Nat) :
    handle_request db now (.obj [("method", .str "tools/call")])
      = .ok (db, [("error", .str "Tool not found: None")])
    ∧ handle_request db now (.obj [("method", .str "tools/call"),
        ("params", .obj [])])
      = .ok (db, [("error", .str "Tool not found: None")])
    ∧ handle_request db now (.obj [("method", .str "tools/call"),
        ("params", .obj [("name", .str "list_todos")])])
      = .ok (db, [("todos", .arr (db.get_all.map todoToJson))]) :=
  ⟨rfl, rfl, rfl⟩

/-- C4: an update supplying at least one optional field changes only the
supplied fields of the row matching the id and refreshes its updated_at,
leaves every other row (and each row's id and created_at) untouched, and
returns true iff a row with that id existed; a non-existent id yields
false, not an error. -/
theorem C4_update_supplied_fields (db : TodoDatabase) (now : Nat)
    (todo_id : Int) (content : Option String) (done : Option Bool)
    (h : content.isSome ∨ done.isSome) :
    ((db.update todo_id content done now).2 = true
      ↔ ∃ r ∈ db.rows, (r.id : Int) = todo_id)
    ∧ (db.update todo_id content done now).1.seq = db.seq
    ∧ List.Forall₂ (fun r r2 =>
        r2.id = r.id ∧ r2.created_at = r.created_at
          ∧ (if (r.id : Int) = todo_id then
              r2.content = content.getD r.content
                ∧ r2.done = done.getD r.done ∧ r2.updated_at = now
            else r2 = r))
        db.rows (db.update todo_id content done now).1.rows := by
  have hcond : ¬ ((content.isNone : Prop) ∧ (done.isNone : Prop)) := by
    cases content <;> cases done <;> simp_all
  simp only [TodoDatabase.update, if_neg hcond]
  refine ⟨?_, ?_, ?_⟩
  · simp [List.any_eq_true]
  · trivial
  · rw [List.forall₂_map_right_iff, List.forall₂_same]
    intro r hr
    by_cases hid : (r.id : Int) = todo_id
    · simp [hid]
    · simp [hid]

/-- Witness for C4: updating the done flag of the single stored row. -/
theorem C4_update_witness :
    ((some "x" : Option String).isSome ∨ (none : Option Bool).isSome)
    ∧ ((((TodoDatabase.mk [⟨1, "a", false, 0, 0⟩] 1).update 1
          (some "x") none 5).2 = true
        ↔ ∃ r ∈ (TodoDatabase.mk [⟨1, "a", false, 0, 0⟩] 1).rows,
            (r.id : Int) = 1)
       ∧ ((TodoDatabase.mk [⟨1, "a", false, 0, 0⟩] 1).update 1
            (some "x") none 5).1.seq
          = (TodoDatabase.mk [⟨1, "a", false, 0, 0⟩] 1).seq
       ∧ List.Forall₂ (fun r r2 =>
            r2.id = r.id ∧ r2.created_at = r.created_at
              ∧ (if (r.id : Int) = 1 then
                  r2.content = (some "x").getD r.content
                    ∧ r2.done = (none : Option Bool).getD r.done
                    ∧ r2.updated_at = 5
                else r2 = r))
            (TodoDatabase.mk [⟨1, "a", false, 0, 0⟩] 1).rows
            ((TodoDatabase.mk [⟨1, "a", false, 0, 0⟩] 1).update 1
              (some "x") none 5).1.rows) :=
  ⟨Or.inl rfl,
   C4_update_supplied_fields (TodoDatabase.mk [⟨1, "a", false, 0, 0⟩] 1)
     5 1 (some "x") none (Or.inl rfl)⟩

/-- C6: `add_todo` with a content string returns the assigned id with
success=true, appends exactly one row with that content, done=false and
equal timestamps, and (when stored ids are bounded by the sequence, as
every reachable store is) a subsequent listing contains that row and
contains exactly one row with the fresh id. -/
theorem C6_add_todo (db : TodoDatabase) (now : Nat) (content : String)
    (h : ∀ r ∈ db.rows, r.id ≤ db.seq) :
    (add_todo db now [("content", .str content)]).2
      = .obj [("id", .num (db.seq + 1)), ("success", .bool true)]
    ∧ (add_todo db now [("content", .str content)]).1.rows
      = db.rows ++ [⟨db.seq + 1, content, false, now, now⟩]
    ∧ (⟨db.seq + 1, content, false, now, now⟩ : Todo)
        ∈ (add_todo db now [("content", .str content)]).1.get_all
    ∧ ((add_todo db now [("content", .str content)]).1.get_all.countP
        fun r => r.id == db.seq + 1) = 1 := by
  refine ⟨rfl, rfl, ?_, ?_⟩
  · show (⟨db.seq + 1, content, false, now, now⟩ : Todo)
        ∈ List.insertionSort todoLe
          (db.rows ++ [⟨db.seq + 1, content, false, now, now⟩])
    exact (List.mem_insertionSort todoLe).mpr
      (List.mem_append_right _ (List.mem_singleton_self _))
  · show (List.insertionSort todoLe
        (db.rows ++ [⟨db.seq + 1, content, false, now, now⟩])).countP
          (fun r => r.id == db.seq + 1) = 1
    rw [(List.perm_insertionSort todoLe _).countP_eq, List.countP_append]
    have h0 : db.rows.countP (fun r => r.id == db.seq + 1) = 0 := by
      refine List.countP_eq_zero.mpr ?_
      intro r hr
      have hle := h r hr
      simp only [beq_iff_eq]
      omega
    rw [h0]
    simp

/-- Witness for C6 over the empty store. -/
theorem C6_add_todo_witness :
    (∀ r ∈ TodoDatabase.empty.rows, r.id ≤ TodoDatabase.empty.seq)
    ∧ ((add_todo TodoDatabase.empty 0 [("content", .str "x")]).2
        = .obj [("id", .num (TodoDatabase.empty.seq + 1)),
                ("success", .bool true)]
       ∧ (add_todo TodoDatabase.empty 0 [("content", .str "x")]).1.rows
          = TodoDatabase.empty.rows
            ++ [⟨TodoDatabase.empty.seq + 1, "x", false, 0, 0⟩]
       ∧ (⟨TodoDatabase.empty.seq + 1, "x", false, 0, 0⟩ : Todo)
          ∈ (add_todo TodoDatabase.empty 0
              [("content", .str "x")]).1.get_all
       ∧ ((add_todo TodoDatabase.empty 0
            [("content", .str "x")]).1.get_all.countP
              fun r => r.id == TodoDatabase.empty.seq + 1) = 1) :=
  ⟨by simp [TodoDatabase.empty],
   C6_add_todo TodoDatabase.empty 0 "x" (by simp [TodoDatabase.empty])⟩

/-- C8: `tools/call` naming an unregistered tool returns the
"Tool not found" error result and leaves the stored todos unchanged, and
any method other than initialize, tools/list and tools/call returns the
"Unknown method" error result. -/
theorem C8_unknown_tool_and_method (db : TodoDatabase) (now : Nat)
    (name m : String) (h1 : name ∉ toolNames)
    (h2 : m ∉ (["initialize", "tools/list", "tools/call"] : List String)) :
    handle_request db now (.obj [("method", .str "tools/call"),
        ("params", .obj [("name", .str name)])])
      = .ok (db, [("error", .str ("Tool not found: " ++ name))])
    ∧ handle_request db now (.obj [("method", .str m)])
      = .ok (db, [("error", .str ("Unknown method: " ++ m))]) := by
  simp only [List.mem_cons, List.not_mem_nil, or_false, not_or] at h2
  obtain ⟨h2a, h2b, h2c⟩ := h2
  constructor
  · simp [handle_request, dictGet, List.lookup, h1]
  · simp [handle_request, dictGet, List.lookup, h2a, h2b, h2c]

/-- Witness for C8 with the unregistered tool name "frobnicate" and the
unknown method "ping". -/
theorem C8_unknown_witness :
    ("frobnicate" ∉ toolNames
      ∧ "ping" ∉ (["initialize", "tools/list", "tools/call"] : List String))
    ∧ (handle_request TodoDatabase.empty 0
        (.obj [("method", .str "tools/call"),
               ("params", .obj [("name", .str "frobnicate")])])
        = .ok (TodoDatabase.empty,
               [("error", .str ("Tool not found: " ++ "frobnicate"))])
       ∧ handle_request TodoDatabase.empty 0
          (.obj [("method", .str "ping")])
          = .ok (TodoDatabase.empty,
                 [("error", .str ("Unknown method: " ++ "ping"))])) :=
  ⟨⟨by simp [toolNames], by simp⟩,
   C8_unknown_tool_and_method TodoDatabase.empty 0 "frobnicate" "ping"
     (by simp [toolNames]) (by simp)⟩

/-- C9: across any operation history from the empty store, stored ids are
pairwise distinct, created_at never exceeds updated_at, and the ids handed
out by the adds form a strictly increasing chain — monotone and never
reused, even after deletions. -/
theorem C9_id_and_timestamp_invariants (ops : List Op) (now : Nat) :
    (exec TodoDatabase.empty now ops).rows.Pairwise (fun a b => a.id ≠ b.id)
    ∧ (∀ t ∈ (exec TodoDatabase.empty now ops).rows,
        t.created_at ≤ t.updated_at)
    ∧ List.Chain' (· < ·) (assignedIds TodoDatabase.empty now ops) := by
  obtain ⟨h1, h2, h3⟩ := inv_exec ops (inv_empty now)
  exact ⟨h1, fun t ht => (h3 t ht).1, chain_assignedIds _ _ _⟩

end TodoMCP
